import Mathlib

set_option autoImplicit false

/-!
Shallow embedding of `beast/examples/phat_small/datamodel.py`: the
module-level configuration lists and the `GenFluxCatalog` class.  Numeric
cells are embedded as rationals; the external collaborators of the class
(the `Observations` table, the `Vega` reference source, the unit capsule)
are modelled from the specification where marked.
-/

/-- Module-level `filters`: full filter names (datamodel.py lines 33-34). -/
def filters : List String :=
  ["HST_WFC3_F275W", "HST_WFC3_F336W", "HST_ACS_WFC_F475W",
   "HST_ACS_WFC_F814W", "HST_WFC3_F110W", "HST_WFC3_F160W"]

/-- Module-level `basefilters`: short filter names (lines 38-39). -/
def basefilters : List String :=
  ["F275W", "F336W", "F475W", "F814W", "F110W", "F160W"]

/-- Python `str.lower()` on one character — all names here are ASCII. -/
def lowerChar (c : Char) : Char :=
  if 65 ≤ c.toNat ∧ c.toNat ≤ 90 then Char.ofNat (c.toNat + 32) else c

/-- Python `str.lower()` — the filter names are ASCII, so per-character. -/
def strLower (s : String) : String :=
  ⟨s.data.map lowerChar⟩

/-- Module-level `obs_colnames = [f.lower() + '_rate' for f in basefilters]`
(line 46). -/
def obs_colnames : List String :=
  basefilters.map (fun f => strLower f ++ "_rate")

/-- Module-level `distanceModulus = 24.47 * unit['mag']` (line 119); the
magnitude unit tag plays no part in any modelled operation, so only the
number is kept. -/
def distanceModulus : ℚ := 24.47

/-- Modelled from the spec: the tabular catalog owned by the external
`Observations` base class — one row of numeric cells per star under named
columns, plus a column-alias table mapping canonical filter names to raw
column names. -/
structure Table where
  colnames : List String
  rows : List (List ℚ)
  aliases : List (String × String)

/-- Modelled from the spec: `set_alias(k, v)` on the catalog — establishes a
column alias from canonical name `k` to raw column name `v`; the newest
binding for a name wins. -/
def Table.set_alias (t : Table) (k v : String) : Table :=
  { t with aliases := (k, v) :: t.aliases }

/-- Modelled from the spec: `resolve_alias(k)` — the catalog's raw column name
for an aliased name, or the name itself when no alias is established. -/
def Table.resolve_alias (t : Table) (k : String) : String :=
  match t.aliases.lookup k with
  | some v => v
  | none => k

/-- Modelled from the spec: `self.data[num]` row retrieval; the row at `num`
when `0 <= num < row_count`, an out-of-range failure (`none`) otherwise —
never a wraparound or a default row. -/
def Table.getRow (t : Table) (num : Int) : Option (List ℚ) :=
  if h : 0 ≤ num ∧ num.toNat < t.rows.length then some (t.rows.get ⟨num.toNat, h.2⟩)
  else none

/-- Modelled from the spec: `d[col]` cell access in a retrieved row — looks the
column up by name; a missing column or a short row is a lookup failure. -/
def Table.getCell (t : Table) (d : List ℚ) (col : String) : Option ℚ :=
  match t.colnames.findIdx? (fun c => c == col) with
  | some i => d.get? i
  | none => none

/-- Modelled from the spec: one query of the reference-flux (Vega) source for a
filter list — the per-filter flux vector, in filter-list order.  The content
of the reference source is the parameter `vegaDB`. -/
def vegaGetFlux (vegaDB : String → ℚ) (fs : List String) : List ℚ :=
  fs.map vegaDB

/-- A Python value passed for the `units` argument of `getFlux`; the identity
test `units is True` holds exactly for the boolean `True` object, not for
truthy values such as the integer 1. -/
inductive PyVal where
  | pyBool (b : Bool)
  | pyInt (n : Int)
  | pyNone
deriving DecidableEq

/-- The unit capsule string of `unit['erg/s/cm**2/Angstrom']` (line 230). -/
def fluxUnitStr : String := "erg/s/cm**2/Angstrom"

/-- Result of `getFlux`: a plain numeric array, or the same array wrapped with
a physical-unit tag (the unit capsule). -/
inductive FluxResult where
  | plain (vals : List ℚ)
  | withUnit (vals : List ℚ) (u : String)
deriving DecidableEq

/-- State of a `GenFluxCatalog` instance: the fields written by
`Observations.__init__` (`desc`, `data`, `distanceModulus`), by `setFilters`
(`filters`, `vega_flux`) and by `setBadValue` (`badValue`). -/
structure GenFluxCatalog where
  desc : String
  data : Table
  distanceModulus : ℚ
  filters : List String
  vega_flux : List ℚ
  badValue : ℚ

/-- `setFilters` (datamodel.py lines 234-253): stores the filter list and
re-fetches the cached Vega reference flux vector for it. -/
def GenFluxCatalog.setFilters (c : GenFluxCatalog) (vegaDB : String → ℚ)
(fs : List String) : GenFluxCatalog :=
  { c with filters := fs, vega_flux := vegaGetFlux vegaDB fs }

/-- Modelled from the spec: `setBadValue` of the external base class stores the
bad-value sentinel on the catalog object. -/
def GenFluxCatalog.setBadValue (c : GenFluxCatalog) (v : ℚ) : GenFluxCatalog :=
  { c with badValue := v }

/-- The constructor loop
`for ik,k in enumerate(filters): self.data.set_alias(k, obs_colnames[ik])`
(lines 202-203): aliases are positional into the fixed module-level
`obs_colnames`; a filter list longer than `obs_colnames` indexes out of
range, which fails the construction. -/
def setRateAliases : Table → List String → Nat → Option Table
  | t, [], _ => some t
  | t, k :: ks, ik =>
    match obs_colnames.get? ik with
    | some col => setRateAliases (t.set_alias k col) ks (ik + 1)
    | none => none

/-- `GenFluxCatalog.__init__` (lines 191-203): the base-class load (modelled
from the spec by taking the already-parsed table as `inputTable`), then
`setFilters`, then `setBadValue(6e-40)`, then the alias loop.  Fields not yet
written by the base class start empty. -/
def GenFluxCatalog.init (vegaDB : String → ℚ) (inputFile : String)
(inputTable : Table) (dm : ℚ) (fs : List String) : Option GenFluxCatalog :=
  let c0 : GenFluxCatalog :=
    { desc := "GENERIC star: " ++ inputFile, data := inputTable,
      distanceModulus := dm, filters := [], vega_flux := [], badValue := 0 }
  let c1 := c0.setFilters vegaDB fs
  let c2 := c1.setBadValue (6 / 10 ^ 40)
  match setRateAliases c2.data fs 0 with
  | some t => some { c2 with data := t }
  | none => none

/-- The list comprehension in `getFlux` (lines 226-227): for each active
filter in order, resolve its alias and read the raw rate cell of row `d`. -/
def readRates (t : Table) (d : List ℚ) : List String → Option (List ℚ)
  | [] => some []
  | ok :: oks =>
    match t.getCell d (t.resolve_alias ok), readRates t d oks with
    | some v, some vs => some (v :: vs)
    | _, _ => none

/-- The numpy elementwise product `np.array([...]) * self.vega_flux`
(line 227); a shape mismatch is a numpy broadcasting error. -/
def mulElem (a b : List ℚ) : Option (List ℚ) :=
  if a.length = b.length then some (List.zipWith (fun x y => x * y) a b) else none

/-- `getFlux` (lines 205-232), with the post-call instance state made
explicit: row retrieval, alias-resolved per-filter reads, elementwise product
with the cached Vega flux, then the `units is True` identity test deciding
whether the unit capsule is attached. -/
def GenFluxCatalog.getFluxS (c : GenFluxCatalog) (num : Int) (units : PyVal) :
    Option FluxResult × GenFluxCatalog :=
  match c.data.getRow num with
  | none => (none, c)
  | some d =>
    match readRates c.data d c.filters with
    | none => (none, c)
    | some raws =>
      match mulElem raws c.vega_flux with
      | none => (none, c)
      | some flux =>
        if units = PyVal.pyBool true then (some (FluxResult.withUnit flux fluxUnitStr), c)
        else (some (FluxResult.plain flux), c)

/-- The value returned by `getFlux`. -/
def GenFluxCatalog.getFlux (c : GenFluxCatalog) (num : Int) (units : PyVal) :
    Option FluxResult :=
  (c.getFluxS num units).1

/-- An event on the reference-flux (Vega) source. -/
inductive VegaEvent where
  | eopen
  | equery (fs : List String)
  | eclose
deriving DecidableEq

/-- Modelled from the spec: the `with Vega() as v` block of `setFilters`
(lines 250-251) — the source is opened, queried once for all filters at once,
and closed on every exit path, including when the query fails (a failing
query is `none`); the result of the block is the query's outcome. -/
def runWithVega (query : List String → Option (List ℚ)) (fs : List String) :
    Option (List ℚ) × List VegaEvent :=
  (query fs, [VegaEvent.eopen, VegaEvent.equery fs, VegaEvent.eclose])

/-! ### Structural lemmas -/

/-- A successful batch of rate reads has one value per requested filter. -/
theorem readRates_length (t : Table) (d : List ℚ) :
    ∀ (fs : List String) (rs : List ℚ), readRates t d fs = some rs → rs.length = fs.length := by
  intro fs
  induction fs with
  | nil =>
    intro rs h
    simp only [readRates, Option.some.injEq] at h
    simp [← h]
  | cons ok oks ih =>
    intro rs h
    simp only [readRates] at h
    cases hv : t.getCell d (t.resolve_alias ok) with
    | none => rw [hv] at h; cases h
    | some v =>
      cases hrs : readRates t d oks with
      | none => rw [hv, hrs] at h; cases h
      | some vs =>
        rw [hv, hrs] at h
        cases h
        simp [ih vs hrs]

/-- The alias loop touches only the alias table, not the columns or rows. -/
theorem setRateAliases_data :
    ∀ (fs : List String) (t t' : Table) (n : Nat), setRateAliases t fs n = some t' →
      t'.colnames = t.colnames ∧ t'.rows = t.rows := by
  intro fs
  induction fs with
  | nil =>
    intro t t' n h
    simp only [setRateAliases, Option.some.injEq] at h
    simp [← h]
  | cons k ks ih =>
    intro t t' n h
    simp only [setRateAliases] at h
    cases hc : obs_colnames.get? n with
    | none => rw [hc] at h; cases h
    | some col =>
      rw [hc] at h
      simpa [Table.set_alias] using ih _ _ _ h

/-- The alias loop leaves the binding of every name not in the processed list
unchanged. -/
theorem setRateAliases_lookup_notMem :
    ∀ (fs : List String) (t t' : Table) (n : Nat) (key : String),
      key ∉ fs → setRateAliases t fs n = some t' →
      t'.aliases.lookup key = t.aliases.lookup key := by
  intro fs
  induction fs with
  | nil =>
    intro t t' n key _ h
    simp only [setRateAliases, Option.some.injEq] at h
    simp [← h]
  | cons k ks ih =>
    intro t t' n key hkey h
    simp only [setRateAliases] at h
    cases hc : obs_colnames.get? n with
    | none => rw [hc] at h; cases h
    | some col =>
      rw [hc] at h
      have h1 : key ∉ ks := fun hm => hkey (List.mem_cons_of_mem _ hm)
      have h2 : key ≠ k := fun he => hkey (he ▸ List.mem_cons_self _ _)
      have hbf : (key == k) = false := beq_eq_false_iff_ne.mpr h2
      rw [ih _ _ _ _ h1 h]
      simp [Table.set_alias, List.lookup_cons, hbf]

/-- After a successful alias loop over a duplicate-free list, the name at
position `ik` is bound to the entry of `obs_colnames` at the matching
position. -/
theorem setRateAliases_lookup_get :
    ∀ (fs : List String) (t t' : Table) (n : Nat), fs.Nodup →
      setRateAliases t fs n = some t' →
      ∀ (ik : Nat) (k : String), fs.get? ik = some k →
        ∃ col, obs_colnames.get? (n + ik) = some col
          ∧ t'.aliases.lookup k = some col := by
  intro fs
  induction fs with
  | nil => intro t t' n _ _ ik k hk; simp at hk
  | cons x xs ih =>
    intro t t' n hnd h ik k hk
    simp only [setRateAliases] at h
    cases hc : obs_colnames.get? n with
    | none => rw [hc] at h; cases h
    | some col =>
      rw [hc] at h
      cases ik with
      | zero =>
        simp only [List.get?_cons_zero, Option.some.injEq] at hk
        subst hk
        have hx : x ∉ xs := (List.nodup_cons.mp hnd).1
        refine ⟨col, by simpa using hc, ?_⟩
        rw [setRateAliases_lookup_notMem xs _ _ _ x hx h]
        simp [Table.set_alias]
      | succ m =>
        obtain ⟨col', hcol', hl⟩ :=
          ih (t.set_alias x col) t' (n + 1) (List.nodup_cons.mp hnd).2 h m k
            (by simpa using hk)
        exact ⟨col', by rw [show n + (m + 1) = n + 1 + m by omega]; exact hcol', hl⟩

/-- The fields of a successfully constructed catalog, in terms of the
constructor's arguments. -/
theorem init_fields (vegaDB : String → ℚ) (f : String) (T : Table) (dm : ℚ)
    (fs : List String) (c : GenFluxCatalog)
    (h : GenFluxCatalog.init vegaDB f T dm fs = some c) :
    c.filters = fs ∧ c.vega_flux = vegaGetFlux vegaDB fs ∧ c.badValue = 6 / 10 ^ 40
      ∧ c.distanceModulus = dm ∧ c.desc = "GENERIC star: " ++ f
      ∧ setRateAliases T fs 0 = some c.data := by
  simp only [GenFluxCatalog.init, GenFluxCatalog.setFilters, GenFluxCatalog.setBadValue] at h
  cases hA : setRateAliases T fs 0 with
  | none => rw [hA] at h; cases h
  | some t =>
    rw [hA] at h
    cases h
    exact ⟨rfl, rfl, rfl, rfl, rfl, rfl⟩

/-! ### Concrete instantiation used by the witnesses -/

/-- A concrete reference-flux source content. -/
def vegaDB1 : String → ℚ := fun _ => 2

/-- A concrete two-row catalog table whose columns are the rate columns. -/
def T1 : Table :=
  { colnames := obs_colnames,
    rows := [[1, 2, 3, 4, 5, 6], [7, 8, 9, 10, 11, 12]],
    aliases := [] }

/-- The catalog built from the concrete inputs (total by a fallback that the
successful construction never reaches). -/
def cEx : GenFluxCatalog :=
  match GenFluxCatalog.init vegaDB1 "data/b15_4band_det_27_A.fits" T1 distanceModulus
      filters with
  | some c => c
  | none =>
    { desc := "", data := T1, distanceModulus := 0, filters := [],
      vega_flux := [], badValue := 0 }

/-- The concrete construction succeeds and produces `cEx`. -/
theorem cEx_spec :
    GenFluxCatalog.init vegaDB1 "data/b15_4band_det_27_A.fits" T1 distanceModulus
      filters = some cEx := by
  rfl

/-! ### The claims -/

/-- C1: for an in-range row whose per-filter aliased rate cells all read
successfully, `getFlux` returns one value per active filter, in filter-list
order, the j-th being the j-th raw rate times the j-th cached Vega flux — an
elementwise product, not a dot product. -/
theorem getFlux_elementwise_product (vegaDB : String → ℚ) (f : String) (T : Table)
    (dm : ℚ) (fs : List String) (c : GenFluxCatalog)
    (hc : GenFluxCatalog.init vegaDB f T dm fs = some c)
    (i : Int) (d : List ℚ) (hd : c.data.getRow i = some d)
    (raws : List ℚ) (hr : readRates c.data d c.filters = some raws) :
    c.getFlux i (PyVal.pyBool false)
        = some (FluxResult.plain (List.zipWith (fun a b => a * b) raws c.vega_flux))
      ∧ (List.zipWith (fun a b => a * b) raws c.vega_flux).length = c.filters.length
      ∧ ∀ (j : Nat) (r v : ℚ), raws.get? j = some r → c.vega_flux.get? j = some v →
          (List.zipWith (fun a b => a * b) raws c.vega_flux).get? j = some (r * v) := by
  obtain ⟨hf, hv, -, -, -, -⟩ := init_fields vegaDB f T dm fs c hc
  have hlr : raws.length = c.filters.length := readRates_length c.data d c.filters raws hr
  have hlv : c.vega_flux.length = c.filters.length := by
    rw [hv, hf]; simp [vegaGetFlux]
  have hmul : mulElem raws c.vega_flux
      = some (List.zipWith (fun a b => a * b) raws c.vega_flux) := by
    unfold mulElem
    rw [if_pos (hlr.trans hlv.symm)]
  refine ⟨?_, ?_, ?_⟩
  · simp [GenFluxCatalog.getFlux, GenFluxCatalog.getFluxS, hd, hr, hmul]
  · rw [List.length_zipWith, hlr, hlv, Nat.min_self]
  · intro j r v h1 h2
    rw [List.get?_zipWith_eq_some]
    exact ⟨r, v, h1, h2, rfl⟩

/-- Witness for C1 at the concrete catalog, row 0. -/
theorem getFlux_elementwise_product_witness :
    cEx.getFlux 0 (PyVal.pyBool false)
        = some (FluxResult.plain
            (List.zipWith (fun a b => a * b) ([1, 2, 3, 4, 5, 6] : List ℚ) cEx.vega_flux))
      ∧ (List.zipWith (fun a b => a * b) ([1, 2, 3, 4, 5, 6] : List ℚ)
          cEx.vega_flux).length = cEx.filters.length
      ∧ ∀ (j : Nat) (r v : ℚ), ([1, 2, 3, 4, 5, 6] : List ℚ).get? j = some r →
          cEx.vega_flux.get? j = some v →
          (List.zipWith (fun a b => a * b) ([1, 2, 3, 4, 5, 6] : List ℚ)
            cEx.vega_flux).get? j = some (r * v) :=
  getFlux_elementwise_product vegaDB1 "data/b15_4band_det_27_A.fits" T1 distanceModulus
    filters cEx cEx_spec 0 [1, 2, 3, 4, 5, 6] (by rfl) [1, 2, 3, 4, 5, 6] (by rfl)

/-- C3: any index below 0 or at/above the row count makes `getFlux` fail with
the out-of-range result — no silent wraparound, no default value. -/
theorem getFlux_out_of_range_none (c : GenFluxCatalog) (i : Int) (u : PyVal)
    (h : i < 0 ∨ (c.data.rows.length : Int) ≤ i) :
    c.getFlux i u = none := by
  have hrow : c.data.getRow i = none := by
    unfold Table.getRow
    rw [dif_neg]
    rintro ⟨h1, h2⟩
    rcases h with h | h <;> omega
  simp [GenFluxCatalog.getFlux, GenFluxCatalog.getFluxS, hrow]

/-- Witness for C3: the two-row concrete catalog rejects index -1 and
index 2 = row count. -/
theorem getFlux_out_of_range_none_witness :
    cEx.getFlux (-1) (PyVal.pyBool false) = none
      ∧ cEx.getFlux 2 (PyVal.pyBool true) = none :=
  ⟨getFlux_out_of_range_none cEx (-1) (PyVal.pyBool false) (Or.inl (by decide)),
   getFlux_out_of_range_none cEx 2 (PyVal.pyBool true) (Or.inr (by decide))⟩

/-- Attaching the unit capsule to a plain result. -/
def FluxResult.attachUnit : FluxResult → FluxResult
  | FluxResult.plain vs => FluxResult.withUnit vs fluxUnitStr
  | r => r

/-- Whether a result is a plain, unwrapped array. -/
def FluxResult.isPlain : FluxResult → Bool
  | FluxResult.plain _ => true
  | _ => false

/-- C4: at every index, `getFlux` with `units=True` returns exactly the
`units=False` values with the unit tag attached and nothing else changed, and
the `units=False` result is always a plain unwrapped array. -/
theorem getFlux_units_roundtrip (c : GenFluxCatalog) (i : Int) :
    c.getFlux i (PyVal.pyBool true)
        = (c.getFlux i (PyVal.pyBool false)).map FluxResult.attachUnit
      ∧ Option.all FluxResult.isPlain (c.getFlux i (PyVal.pyBool false)) = true := by
  cases hR : c.data.getRow i with
  | none => simp [GenFluxCatalog.getFlux, GenFluxCatalog.getFluxS, hR, Option.all]
  | some d =>
    cases hr : readRates c.data d c.filters with
    | none => simp [GenFluxCatalog.getFlux, GenFluxCatalog.getFluxS, hR, hr, Option.all]
    | some raws =>
      cases hm : mulElem raws c.vega_flux with
      | none =>
        simp [GenFluxCatalog.getFlux, GenFluxCatalog.getFluxS, hR, hr, hm, Option.all]
      | some flux =>
        simp [GenFluxCatalog.getFlux, GenFluxCatalog.getFluxS, hR, hr, hm, Option.all,
          FluxResult.attachUnit, FluxResult.isPlain]

/-- C5: `setFilters` on an existing catalog replaces the active filter list
and re-fetches the cached Vega flux vector, so subsequent `getFlux` output
follows the new list's length and order, with no reconstruction. -/
theorem setFilters_changes_subsequent_getFlux (c : GenFluxCatalog)
    (vegaDB' : String → ℚ) (fs' : List String) (i : Int) (d : List ℚ)
    (hd : (c.setFilters vegaDB' fs').data.getRow i = some d)
    (raws : List ℚ)
    (hr : readRates (c.setFilters vegaDB' fs').data d fs' = some raws) :
    (c.setFilters vegaDB' fs').filters = fs'
      ∧ (c.setFilters vegaDB' fs').vega_flux = vegaGetFlux vegaDB' fs'
      ∧ (c.setFilters vegaDB' fs').getFlux i (PyVal.pyBool false)
          = some (FluxResult.plain
              (List.zipWith (fun a b => a * b) raws (vegaGetFlux vegaDB' fs')))
      ∧ (List.zipWith (fun a b => a * b) raws (vegaGetFlux vegaDB' fs')).length
          = fs'.length := by
  have hlr : raws.length = fs'.length :=
    readRates_length (c.setFilters vegaDB' fs').data d fs' raws hr
  have hlv : (vegaGetFlux vegaDB' fs').length = fs'.length := by simp [vegaGetFlux]
  have hmul : mulElem raws (vegaGetFlux vegaDB' fs')
      = some (List.zipWith (fun a b => a * b) raws (vegaGetFlux vegaDB' fs')) := by
    unfold mulElem
    rw [if_pos (hlr.trans hlv.symm)]
  refine ⟨rfl, rfl, ?_, ?_⟩
  · simp [GenFluxCatalog.getFlux, GenFluxCatalog.getFluxS, GenFluxCatalog.setFilters]
      at hd hr ⊢
    simp [hd, hr, hmul]
  · rw [List.length_zipWith, hlr, hlv, Nat.min_self]

/-- Witness for C5: after switching to the reversed two-filter subset, row 1
of the concrete catalog yields the two matching rates times the new Vega
values, in the new order. -/
theorem setFilters_changes_subsequent_getFlux_witness :
    (cEx.setFilters (fun _ => 3) ["HST_ACS_WFC_F814W", "HST_WFC3_F275W"]).filters
        = ["HST_ACS_WFC_F814W", "HST_WFC3_F275W"]
      ∧ (cEx.setFilters (fun _ => 3) ["HST_ACS_WFC_F814W", "HST_WFC3_F275W"]).vega_flux
          = vegaGetFlux (fun _ => 3) ["HST_ACS_WFC_F814W", "HST_WFC3_F275W"]
      ∧ (cEx.setFilters (fun _ => 3) ["HST_ACS_WFC_F814W", "HST_WFC3_F275W"]).getFlux 1
            (PyVal.pyBool false)
          = some (FluxResult.plain (List.zipWith (fun a b => a * b) ([10, 7] : List ℚ)
              (vegaGetFlux (fun _ => 3) ["HST_ACS_WFC_F814W", "HST_WFC3_F275W"])))
      ∧ (List.zipWith (fun a b => a * b) ([10, 7] : List ℚ)
          (vegaGetFlux (fun _ => 3) ["HST_ACS_WFC_F814W", "HST_WFC3_F275W"])).length
          = (["HST_ACS_WFC_F814W", "HST_WFC3_F275W"] : List String).length :=
  setFilters_changes_subsequent_getFlux cEx (fun _ => 3)
    ["HST_ACS_WFC_F814W", "HST_WFC3_F275W"] 1 [7, 8, 9, 10, 11, 12] (by rfl)
    [10, 7] (by rfl)

/-- C6: two constructions from identical inputs produce the same cached Vega
flux vector — and the same catalog state altogether. -/
theorem init_deterministic (vegaDB : String → ℚ) (f : String) (T : Table) (dm : ℚ)
    (fs : List String) (c1 c2 : GenFluxCatalog)
    (h1 : GenFluxCatalog.init vegaDB f T dm fs = some c1)
    (h2 : GenFluxCatalog.init vegaDB f T dm fs = some c2) :
    c1.vega_flux = c2.vega_flux ∧ c1 = c2 := by
  obtain rfl : c1 = c2 := Option.some.inj (h1.symm.trans h2)
  exact ⟨rfl, rfl⟩

/-- Witness for C6 at the concrete construction. -/
theorem init_deterministic_witness : cEx.vega_flux = cEx.vega_flux ∧ cEx = cEx :=
  init_deterministic vegaDB1 "data/b15_4band_det_27_A.fits" T1 distanceModulus filters
    cEx cEx cEx_spec cEx_spec

/-- C7: `getFlux` has no side effect — the post-call instance state (data,
aliases, filters, Vega cache, bad-value sentinel) equals the pre-call
state, whatever the index and units argument. -/
theorem getFlux_state_unchanged (c : GenFluxCatalog) (i : Int) (u : PyVal) :
    (c.getFluxS i u).2 = c
      ∧ (c.getFluxS i u).2.data = c.data
      ∧ (c.getFluxS i u).2.data.aliases = c.data.aliases
      ∧ (c.getFluxS i u).2.filters = c.filters
      ∧ (c.getFluxS i u).2.vega_flux = c.vega_flux
      ∧ (c.getFluxS i u).2.badValue = c.badValue := by
  have hs : (c.getFluxS i u).2 = c := by
    cases hR : c.data.getRow i with
    | none => simp [GenFluxCatalog.getFluxS, hR]
    | some d =>
      cases hr : readRates c.data d c.filters with
      | none => simp [GenFluxCatalog.getFluxS, hR, hr]
      | some raws =>
        cases hm : mulElem raws c.vega_flux with
        | none => simp [GenFluxCatalog.getFluxS, hR, hr, hm]
        | some flux =>
          by_cases hu : u = PyVal.pyBool true <;>
            simp [GenFluxCatalog.getFluxS, hR, hr, hm, hu]
  exact ⟨hs, by rw [hs], by rw [hs], by rw [hs], by rw [hs], by rw [hs]⟩

/-- C8: the scoped Vega acquisition opens the source, queries it exactly once
for all filters at once, and closes it before returning, on every exit path —
the trace is the same even when the query fails (`none`). -/
theorem withVega_scoped_release (q : List String → Option (List ℚ))
    (fs : List String) :
    (runWithVega q fs).2 = [VegaEvent.eopen, VegaEvent.equery fs, VegaEvent.eclose]
      ∧ (runWithVega q fs).2.count VegaEvent.eopen = 1
      ∧ (runWithVega q fs).2.count VegaEvent.eclose = 1
      ∧ (runWithVega q fs).2.count (VegaEvent.equery fs) = 1
      ∧ (runWithVega q fs).1 = q fs := by
  refine ⟨rfl, rfl, rfl, ?_, rfl⟩
  simp [runWithVega, List.count_cons]

/-- C9: the unit capsule is attached only when `units` is identically the
boolean True; any other value — including the truthy integer 1 — gives the
same result as `units=False`. -/
theorem getFlux_units_identity_only (c : GenFluxCatalog) (i : Int) (u : PyVal)
    (h : u ≠ PyVal.pyBool true) :
    c.getFlux i u = c.getFlux i (PyVal.pyBool false) := by
  cases hR : c.data.getRow i with
  | none => simp [GenFluxCatalog.getFlux, GenFluxCatalog.getFluxS, hR]
  | some d =>
    cases hr : readRates c.data d c.filters with
    | none => simp [GenFluxCatalog.getFlux, GenFluxCatalog.getFluxS, hR, hr]
    | some raws =>
      cases hm : mulElem raws c.vega_flux with
      | none => simp [GenFluxCatalog.getFlux, GenFluxCatalog.getFluxS, hR, hr, hm]
      | some flux =>
        simp [GenFluxCatalog.getFlux, GenFluxCatalog.getFluxS, hR, hr, hm, h]

/-- Witness for C9: passing the integer 1 for `units` at the concrete catalog
behaves exactly like `units=False`. -/
theorem getFlux_units_identity_only_witness :
    cEx.getFlux 0 (PyVal.pyInt 1) = cEx.getFlux 0 (PyVal.pyBool false) :=
  getFlux_units_identity_only cEx 0 (PyVal.pyInt 1) (by decide)

/-- C10: `setFilters` writes only the filter list and Vega cache — the table
with its alias bindings, the description, the distance modulus and the
bad-value sentinel are untouched — and a name that was not in the
construction-time filter list has no alias afterwards (it resolves to
itself). -/
theorem setFilters_frame_no_new_aliases (vegaDB : String → ℚ) (f : String)
    (T : Table) (dm : ℚ) (fs : List String) (c : GenFluxCatalog)
    (hc : GenFluxCatalog.init vegaDB f T dm fs = some c)
    (hT : T.aliases = []) (g : String) (hg : g ∉ fs)
    (vegaDB' : String → ℚ) (fs' : List String) :
    (c.setFilters vegaDB' fs').data = c.data
      ∧ (c.setFilters vegaDB' fs').badValue = c.badValue
      ∧ (c.setFilters vegaDB' fs').desc = c.desc
      ∧ (c.setFilters vegaDB' fs').distanceModulus = c.distanceModulus
      ∧ (c.setFilters vegaDB' fs').data.resolve_alias g = g := by
  obtain ⟨-, -, -, -, -, hA⟩ := init_fields vegaDB f T dm fs c hc
  have hlook : c.data.aliases.lookup g = none := by
    rw [setRateAliases_lookup_notMem fs T c.data 0 g hg hA, hT]
    rfl
  refine ⟨rfl, rfl, rfl, rfl, ?_⟩
  show c.data.resolve_alias g = g
  unfold Table.resolve_alias
  rw [hlook]

/-- Witness for C10: a fresh name passed to `setFilters` on the concrete
catalog gets no alias, and the other state is untouched. -/
theorem setFilters_frame_no_new_aliases_witness :
    (cEx.setFilters vegaDB1 ["F9999"]).data = cEx.data
      ∧ (cEx.setFilters vegaDB1 ["F9999"]).badValue = cEx.badValue
      ∧ (cEx.setFilters vegaDB1 ["F9999"]).desc = cEx.desc
      ∧ (cEx.setFilters vegaDB1 ["F9999"]).distanceModulus = cEx.distanceModulus
      ∧ (cEx.setFilters vegaDB1 ["F9999"]).data.resolve_alias "F9999" = "F9999" :=
  setFilters_frame_no_new_aliases vegaDB1 "data/b15_4band_det_27_A.fits" T1
    distanceModulus filters cEx cEx_spec rfl "F9999" (by decide) vegaDB1 ["F9999"]

/-- C2 counterexample: with the module's default filter list the constructor
aliases the canonical name HST_WFC3_F275W to the column f275w_rate — built
from the short `basefilters` name — and not to the lower-cased filter name
suffixed with `_rate`, which would be hst_wfc3_f275w_rate. -/
theorem alias_not_lowercased_filter_name :
    (GenFluxCatalog.init vegaDB1 "data/b15_4band_det_27_A.fits" T1 distanceModulus
        filters).map (fun c => c.data.resolve_alias "HST_WFC3_F275W")
      = some "f275w_rate"
      ∧ "f275w_rate" ≠ strLower "HST_WFC3_F275W" ++ "_rate" :=
  ⟨by rfl, by decide⟩

/-- C2 amended: for a duplicate-free filter list accepted by the constructor,
the filter at position ik is aliased to `obs_colnames[ik]` — the lower-cased
entry of the fixed module-level `basefilters` list at the same position, with
`_rate` appended — positionally, not derived from the filter name itself. -/
theorem init_alias_positional_obs_colnames (vegaDB : String → ℚ) (f : String)
    (T : Table) (dm : ℚ) (fs : List String) (c : GenFluxCatalog)
    (hc : GenFluxCatalog.init vegaDB f T dm fs = some c) (hnd : fs.Nodup)
    (ik : Nat) (k : String) (hk : fs.get? ik = some k) :
    ∃ col, obs_colnames.get? ik = some col
      ∧ c.data.aliases.lookup k = some col
      ∧ (basefilters.get? ik).map (fun b => strLower b ++ "_rate") = some col := by
  obtain ⟨-, -, -, -, -, hA⟩ := init_fields vegaDB f T dm fs c hc
  obtain ⟨col, hcol, hl⟩ := setRateAliases_lookup_get fs T c.data 0 hnd hA ik k hk
  rw [Nat.zero_add] at hcol
  refine ⟨col, hcol, hl, ?_⟩
  rw [← hcol]
  simp [obs_colnames, List.get?_map]

/-- Witness for C2's amended claim at position 0 of the default list. -/
theorem init_alias_positional_obs_colnames_witness :
    ∃ col, obs_colnames.get? 0 = some col
      ∧ cEx.data.aliases.lookup "HST_WFC3_F275W" = some col
      ∧ (basefilters.get? 0).map (fun b => strLower b ++ "_rate") = some col :=
  init_alias_positional_obs_colnames vegaDB1 "data/b15_4band_det_27_A.fits" T1
    distanceModulus filters cEx cEx_spec (by decide) 0 "HST_WFC3_F275W" (by rfl)
